import Mathlib

/-!
Shallow embedding of `src/cliff/app.py` (the `App` dispatch-and-lifecycle
engine of the cliff command-line framework).

Modelling conventions:
- A Python exception is an `Except.error` carrying the exception message
  (`String`).  A function that can raise returns `Except String α`.
- Observable side effects (hook calls, log lines, logging configuration)
  are recorded as an explicit trace: a `List Event`.  Engine functions
  return `Trace × Except String Int`; an `Except.error` result means the
  call raised past the engine to its caller.
- External collaborators (the command registry's `find_command`, the
  command objects produced by its factories, the argparse global-option
  parser, the lifecycle hooks that subclasses override, and the
  interactive shell's input stream) are fields of the `App` record, so
  theorems quantify over all their behaviours.
- `self.options` is set by `run` (app.py:120) and read by the other
  methods; it is passed as an explicit `Options` argument here.
-/

namespace Cliff

/-- An observable step of the engine.  `configure_logging` records the
console severity threshold that was installed; `getParser` records the
display name handed to the command's parser builder (app.py:164);
`log_error` / `log_exception` record the two logging calls
(`LOG.error` one-line form and `LOG.exception` full-diagnostic form). -/
inductive Event where
  | configure_logging (console_level : Nat)
  | initialize_app
  | interact
  | resolve
  | prepare
  | getParser (full_name : String)
  | parse_args
  | execute
  | clean_up
  | log_error (msg : String)
  | log_exception (msg : String)
  deriving DecidableEq, Repr

abbrev Trace := List Event

/-- The global options produced by `parse_known_args` (app.py:60-86):
`verbose_level` (default 1, `-q` forces 0, `-v` counts up) and `debug`. -/
structure Options where
  verbose_level : Nat
  debug : Bool
  deriving DecidableEq, Repr

/-- The parser object returned by a command's `get_parser`; its
`parse_args` method parses the leftover tokens (app.py:165) and may
raise.  The parsed-arguments value is kept abstract as a token list. -/
structure CmdParser where
  parse_args : List String → Except String (List String)

/-- A command instance (external, polymorphic): `get_parser` builds its
parser from a display name (may raise), `run` executes it on the parsed
arguments, returning an integer result or raising (app.py:164-166).
Named `getParser` in this embedding. -/
structure Command where
  getParser : String → Except String CmdParser
  run : List String → Except String Int

/-- The application.  `find_command` is the registry lookup
`self.command_manager.find_command(argv)` (app.py:157) returning the
command instance (the unconditional factory call `cmd_factory(self,
self.options)` of app.py:158 is folded into it), the matched command
name and the remaining tokens; it raises when no registered name
matches.  `stdin` is the interactive shell's input, one tokenized line
per element, exhausted at end-of-input.  `initialize_app`,
`prepare_to_run_command` and `clean_up` are the overridable hooks
(app.py:132-147); the base-class bodies are the always-`ok` values. -/
structure App where
  NAME : String
  interactive_mode : Bool
  stdin : List (List String)
  parse_known_args : List String → Options × List String
  initialize_app : Except String Unit
  find_command : List String → Except String (Command × String × List String)
  prepare_to_run_command : Command → Except String Unit
  clean_up : Command → Int → Option String → Except String Unit

/-- Python `logging` severity constants. -/
def WARNING : Nat := 30

def INFO : Nat := 20

def DEBUG : Nat := 10

/-- The console-severity mapping of `App.configure_logging`
(app.py:107-110): `{0: WARNING, 1: INFO, 2: DEBUG}.get(verbose_level,
DEBUG)`. -/
def console_level (verbose_level : Nat) : Nat :=
  match verbose_level with
  | 0 => WARNING
  | 1 => INFO
  | 2 => DEBUG
  | _ => DEBUG

/-- `App.configure_logging` (app.py:89-115): installs the file sink and
a console sink at the mapped threshold.  Only the installed console
threshold is observable in this model. -/
def configure_logging (opts : Options) : Trace :=
  [Event.configure_logging (console_level opts.verbose_level)]

/-- The `try` block of `App.run_subcommand` (app.py:161-166): prepare
hook, display name, build the command's parser, parse the sub-argv,
execute.  The trace records each call made before the first raise. -/
def try_body (app : App) (cmd : Command) (cmd_name : String)
    (sub_argv : List String) : Trace × Except String Int :=
  match app.prepare_to_run_command cmd with
  | .error e => ([Event.prepare], .error e)
  | .ok _ =>
    let full_name := if app.interactive_mode then cmd_name
                     else app.NAME ++ " " ++ cmd_name
    match cmd.getParser full_name with
    | .error e => ([Event.prepare, Event.getParser full_name], .error e)
    | .ok cmdParser =>
      match cmdParser.parse_args sub_argv with
      | .error e =>
        ([Event.prepare, Event.getParser full_name, Event.parse_args], .error e)
      | .ok parsed_args =>
        match cmd.run parsed_args with
        | .error e =>
          ([Event.prepare, Event.getParser full_name, Event.parse_args,
            Event.execute], .error e)
        | .ok result =>
          ([Event.prepare, Event.getParser full_name, Event.parse_args,
            Event.execute], .ok result)

/-- The `finally` block of `App.run_subcommand` (app.py:172-179): call
`clean_up(cmd, result, err)`; a failure raised by it is logged with
full detail when `debug` is set, else as one `Could not clean up:`
error line, and swallowed either way. -/
def finally_clean_up (app : App) (opts : Options) (cmd : Command)
    (result : Int) (err : Option String) : Trace :=
  Event.clean_up ::
    match app.clean_up cmd result err with
    | .ok _ => []
    | .error e2 =>
      if opts.debug then [Event.log_exception e2]
      else [Event.log_error ("Could not clean up: " ++ e2)]

/-- `App.run_subcommand` (app.py:156-180).  `find_command` runs before
the `try` block, so a resolution failure raises out of the method with
no `finally` to intercept it.  Inside the `try`/`except`/`finally`:
`result` starts at 1 and is only reassigned by a completed `cmd.run`;
on a raise from the body, debug mode logs the full exception and
re-raises (the `finally` still runs during propagation), non-debug
mode logs one `ERROR:` line and falls through to return 1. -/
def run_subcommand (app : App) (opts : Options) (argv : List String) :
    Trace × Except String Int :=
  match app.find_command argv with
  | .error e => ([Event.resolve], .error e)
  | .ok (cmd, cmd_name, sub_argv) =>
    match try_body app cmd cmd_name sub_argv with
    | (t, .ok result) =>
      (Event.resolve :: t ++ finally_clean_up app opts cmd result none,
       .ok result)
    | (t, .error e) =>
      if opts.debug then
        (Event.resolve :: t ++ Event.log_exception e ::
           finally_clean_up app opts cmd 1 (some e),
         .error e)
      else
        (Event.resolve :: t ++ Event.log_error ("ERROR: " ++ e) ::
           finally_clean_up app opts cmd 1 (some e),
         .ok 1)

/-- Modelled from the spec: `src/cliff/interactive.py` (the
`InteractiveApp` shell driven by `interpreter.cmdloop()` at app.py:153)
is not among the sources.  Per the spec, the Interactive Shell
"repeatedly reads one line of input, splits it into tokens, and
forwards it to the Dispatch Engine as if it were a one-shot
invocation; terminates on an explicit quit signal or end-of-input",
and a debug-mode failure re-raised by the engine "propagates out of
the engine, terminating interactive mode entirely".  Each element of
`lines` is one already-tokenized input line; the list ends at the quit
signal or end-of-input. -/
def cmdloop (app : App) (opts : Options) (lines : List (List String)) :
    Trace × Except String Unit :=
  match lines with
  | [] => ([], .ok ())
  | line :: rest =>
    match run_subcommand app opts line with
    | (t, .ok _) =>
      match cmdloop app opts rest with
      | (t', r) => (t ++ t', r)
    | (t, .error e) => (t, .error e)

/-- `App.interact` (app.py:149-154): set `interactive_mode`, run the
shell's `cmdloop` over the input stream, and return 0 once the loop
returns.  A failure propagating out of the loop raises out of
`interact` as well. -/
def interact (app : App) (opts : Options) : Trace × Except String Int :=
  let app' := {app with interactive_mode := true}
  match cmdloop app' opts app'.stdin with
  | (t, .ok _) => (Event.interact :: t, .ok 0)
  | (t, .error e) => (Event.interact :: t, .error e)

/-- `App.run` (app.py:117-128): parse global options, configure
logging, run the one-time `initialize_app` hook (a raise from it
propagates: `run` has no handler), then enter interactive mode when
the remainder is empty and single-shot dispatch otherwise. -/
def run (app : App) (argv : List String) : Trace × Except String Int :=
  match app.parse_known_args argv with
  | (options, remainder) =>
    let t0 := configure_logging options ++ [Event.initialize_app]
    match app.initialize_app with
    | .error e => (t0, .error e)
    | .ok _ =>
      match remainder with
      | [] =>
        match interact app options with
        | (t, r) => (t0 ++ t, r)
      | _ :: _ =>
        match run_subcommand app options remainder with
        | (t, r) => (t0 ++ t, r)

/-! Classifiers over the trace, used to state the claims. -/

/-- The lifecycle steps of one invocation (resolution, hooks, parser
construction, parsing, execution, cleanup), as opposed to log lines. -/
def isLifecycle : Event → Bool
  | .resolve => true
  | .prepare => true
  | .getParser _ => true
  | .parse_args => true
  | .execute => true
  | .clean_up => true
  | _ => false

/-- The log lines (`LOG.error` and `LOG.exception` calls). -/
def isLog : Event → Bool
  | .log_error _ => true
  | .log_exception _ => true
  | _ => false

/-- The full lifecycle chain of one invocation as the source orders it:
resolution first (app.py:157), then the prepare hook (app.py:162), then
parser construction, argument parsing and execution (app.py:164-166). -/
def lifecycleChain (full_name : String) : Trace :=
  [Event.resolve, Event.prepare, Event.getParser full_name,
   Event.parse_args, Event.execute]

/-! Concrete fixtures used by counterexamples and witnesses. -/

/-- A command parser that accepts any tokens. -/
def okParser : CmdParser := { parse_args := fun ts => .ok ts }

/-- A command that builds its parser and runs successfully with result `r`. -/
def okCommand (r : Int) : Command :=
  { getParser := fun _ => .ok okParser, run := fun _ => .ok r }

/-- A command whose execution body always raises `msg`. -/
def failCommand (msg : String) : Command :=
  { getParser := fun _ => .ok okParser, run := fun _ => .error msg }

def opts_default : Options := { verbose_level := 1, debug := false }

def opts_debug : Options := { verbose_level := 1, debug := true }

/-- A base application whose registry knows no command, with base-class
(no-op) hooks. -/
def baseApp : App where
  NAME := "prog"
  interactive_mode := false
  stdin := []
  parse_known_args := fun argv => (opts_default, argv)
  initialize_app := .ok ()
  find_command := fun argv =>
    .error ("Unknown command " ++ String.intercalate " " argv)
  prepare_to_run_command := fun _ => .ok ()
  clean_up := fun _ _ _ => .ok ()

/-- `baseApp` with the single command `foo` registered as `cmd`. -/
def fooApp (cmd : Command) : App :=
  {baseApp with find_command := fun argv =>
    match argv with
    | "foo" :: rest => .ok (cmd, "foo", rest)
    | _ => .error "Unknown command"}

/-- `fooApp` with a cleanup hook that always raises `cboom`. -/
def cleanupFailApp : App :=
  {fooApp (okCommand 0) with clean_up := fun _ _ _ => .error "cboom"}

/-- `fooApp cmd` whose global-option parsing yields `--debug`. -/
def debugApp (cmd : Command) : App :=
  {fooApp cmd with parse_known_args := fun argv => (opts_debug, argv)}

/-- `fooApp` of an always-failing command, with two interactive input
lines (both of which fail: one execution failure, one well-formed). -/
def interactiveFailApp : App :=
  {fooApp (failCommand "boom") with stdin := [["foo"], ["foo", "x"]]}

/-! Theorems for the claims. -/

/-- C1 (counterexample): with no command registered, dispatching
`["nope"]` refutes the claim: the cleanup hook is invoked zero times
(not exactly once) and the invocation raises `CommandNotFound` past the
engine instead of returning the result 1. -/
theorem C1_counterexample :
    ¬ ((run_subcommand baseApp opts_default ["nope"]).1.count Event.clean_up = 1
        ∧ (run_subcommand baseApp opts_default ["nope"]).2 = Except.ok 1) ∧
    run_subcommand baseApp opts_default ["nope"] =
      ([Event.resolve], Except.error "Unknown command nope") :=
  ⟨fun h => absurd h.1 (by decide), rfl⟩

/-- C1 (amended): when registry resolution fails, the failure raises
out of `run_subcommand` to its caller: the cleanup hook is never
invoked and no fallback result 1 is produced; the trace holds the
resolution attempt alone. -/
theorem C1_resolution_failure_propagates (app : App) (opts : Options)
    (argv : List String) (e : String)
    (hfind : app.find_command argv = .error e) :
    run_subcommand app opts argv = ([Event.resolve], Except.error e) ∧
    Event.clean_up ∉ (run_subcommand app opts argv).1 := by
  have h : run_subcommand app opts argv = ([Event.resolve], Except.error e) := by
    simp [run_subcommand, hfind]
  exact ⟨h, by simp [h]⟩

/-- C1 (witness): the amended statement at the concrete fixture. -/
theorem C1_witness :
    run_subcommand baseApp opts_default ["zap"] =
      ([Event.resolve], Except.error "Unknown command zap") ∧
    Event.clean_up ∉ (run_subcommand baseApp opts_default ["zap"]).1 :=
  C1_resolution_failure_propagates baseApp opts_default ["zap"]
    "Unknown command zap" rfl

/-- The `finally` block contributes exactly the cleanup call to the
lifecycle events, whatever the cleanup hook and debug flag do. -/
theorem filter_isLifecycle_finally (app : App) (opts : Options)
    (cmd : Command) (result : Int) (err : Option String) :
    (finally_clean_up app opts cmd result err).filter isLifecycle =
      [Event.clean_up] := by
  unfold finally_clean_up
  cases app.clean_up cmd result err with
  | ok u => simp [isLifecycle]
  | error e2 => cases h : opts.debug <;> simp [isLifecycle]

/-- C2 (counterexample): on a successful invocation of the registered
command `foo`, registry resolution is the first lifecycle event and
the prepare hook only the second, refuting the claimed
prepare-before-resolution order; moreover when resolution is the
failing step the cleanup hook does not run at all, refuting cleanup
after "any earlier step" fails. -/
theorem C2_counterexample :
    (run_subcommand (fooApp (okCommand 0)) opts_default ["foo"]).1.indexOf
        Event.resolve = 0 ∧
    (run_subcommand (fooApp (okCommand 0)) opts_default ["foo"]).1.indexOf
        Event.prepare = 1 ∧
    (run_subcommand baseApp opts_default ["oops"]).1.count Event.clean_up
      = 0 := by
  decide

/-- C2 (amended): for every invocation whose resolution succeeds, the
lifecycle steps occur in the order registry resolution, then the
prepare hook, then parser construction, then argument parsing, then
execution, then the cleanup hook: the lifecycle events of the trace
form a prefix of that chain (cut where the first step failed, so at
least resolution and prepare appear) followed by exactly one cleanup,
which therefore also runs when prepare, parser construction, parsing
or execution fails.  (When resolution itself fails the cleanup hook
does not run; that case is settled under C1.) -/
theorem C2_lifecycle_order (app : App) (opts : Options)
    (argv sub_argv : List String) (cmd : Command) (cmd_name : String)
    (hfind : app.find_command argv = .ok (cmd, cmd_name, sub_argv)) :
    ∃ n, 2 ≤ n ∧ n ≤ 5 ∧
      (run_subcommand app opts argv).1.filter isLifecycle =
        (lifecycleChain (if app.interactive_mode then cmd_name
                         else app.NAME ++ " " ++ cmd_name)).take n
          ++ [Event.clean_up] := by
  cases hprep : app.prepare_to_run_command cmd with
  | error e =>
    refine ⟨2, by decide, by decide, ?_⟩
    cases hdbg : opts.debug <;>
      simp [run_subcommand, hfind, try_body, hprep, hdbg,
            filter_isLifecycle_finally, isLifecycle, lifecycleChain]
  | ok u =>
    cases hgp : cmd.getParser (if app.interactive_mode then cmd_name
                               else app.NAME ++ " " ++ cmd_name) with
    | error e =>
      refine ⟨3, by decide, by decide, ?_⟩
      cases hdbg : opts.debug <;>
        simp [run_subcommand, hfind, try_body, hprep, hgp, hdbg,
              filter_isLifecycle_finally, isLifecycle, lifecycleChain]
    | ok p =>
      cases hpa : p.parse_args sub_argv with
      | error e =>
        refine ⟨4, by decide, by decide, ?_⟩
        cases hdbg : opts.debug <;>
          simp [run_subcommand, hfind, try_body, hprep, hgp, hpa, hdbg,
                filter_isLifecycle_finally, isLifecycle, lifecycleChain]
      | ok parsed =>
        cases hrun : cmd.run parsed with
        | error e =>
          refine ⟨5, by decide, by decide, ?_⟩
          cases hdbg : opts.debug <;>
            simp [run_subcommand, hfind, try_body, hprep, hgp, hpa, hrun,
                  hdbg, filter_isLifecycle_finally, isLifecycle,
                  lifecycleChain]
        | ok r =>
          refine ⟨5, by decide, by decide, ?_⟩
          simp [run_subcommand, hfind, try_body, hprep, hgp, hpa, hrun,
                filter_isLifecycle_finally, isLifecycle, lifecycleChain]

/-- C2 (witness): the amended order at a concrete successful
invocation. -/
theorem C2_witness :
    ∃ n, 2 ≤ n ∧ n ≤ 5 ∧
      (run_subcommand (fooApp (okCommand 0)) opts_default
          ["foo", "a"]).1.filter isLifecycle =
        (lifecycleChain (if (fooApp (okCommand 0)).interactive_mode
                         then "foo"
                         else (fooApp (okCommand 0)).NAME ++ " " ++ "foo")).take n
          ++ [Event.clean_up] :=
  C2_lifecycle_order (fooApp (okCommand 0)) opts_default ["foo", "a"]
    ["a"] (okCommand 0) "foo" rfl

/-- C3: with debug off, a failure raised by the command's execution
body is swallowed: `run` returns the fallback result 1 (no failure
reaches its caller) and the whole run logs exactly the single
`ERROR:` line for it. -/
theorem C3_debug_off_execution_failure_swallowed (app : App)
    (opts : Options) (argv rem sub_argv parsed : List String)
    (cmd : Command) (cmd_name fn e : String) (p : CmdParser)
    (hparse : app.parse_known_args argv = (opts, rem))
    (hrem : rem ≠ [])
    (hdbg : opts.debug = false)
    (hinit : app.initialize_app = Except.ok ())
    (hfind : app.find_command rem = .ok (cmd, cmd_name, sub_argv))
    (hprep : app.prepare_to_run_command cmd = .ok ())
    (hfn : fn = if app.interactive_mode then cmd_name
                else app.NAME ++ " " ++ cmd_name)
    (hgp : cmd.getParser fn = .ok p)
    (hpa : p.parse_args sub_argv = .ok parsed)
    (hrun : cmd.run parsed = .error e)
    (hclean : app.clean_up cmd 1 (some e) = Except.ok ()) :
    (run app argv).2 = Except.ok 1 ∧
    (run app argv).1.filter isLog = [Event.log_error ("ERROR: " ++ e)] := by
  subst hfn
  obtain ⟨r, rs, rfl⟩ := List.exists_cons_of_ne_nil hrem
  constructor <;>
    simp [run, hparse, hinit, run_subcommand, hfind, try_body, hprep,
          hgp, hpa, hrun, hdbg, finally_clean_up, hclean,
          configure_logging, isLog]

/-- C3 (witness): the failing command `boom` under debug off: result 1
and one error line. -/
theorem C3_witness :
    (run (fooApp (failCommand "boom")) ["foo"]).2 = Except.ok 1 ∧
    (run (fooApp (failCommand "boom")) ["foo"]).1.filter isLog =
      [Event.log_error ("ERROR: " ++ "boom")] :=
  C3_debug_off_execution_failure_swallowed (fooApp (failCommand "boom"))
    opts_default ["foo"] ["foo"] [] [] (failCommand "boom") "foo"
    "prog foo" "boom" okParser rfl (by decide) rfl rfl rfl rfl rfl rfl
    rfl rfl rfl

/-- C4: with debug on, a failure raised by the command's execution
body propagates out of `run` to its caller as a raised failure (an
`error` outcome, not a returned result), after it was logged with full
diagnostic detail (`LOG.exception`) and the cleanup hook still ran. -/
theorem C4_debug_on_execution_failure_propagates (app : App)
    (opts : Options) (argv rem sub_argv parsed : List String)
    (cmd : Command) (cmd_name fn e : String) (p : CmdParser)
    (hparse : app.parse_known_args argv = (opts, rem))
    (hrem : rem ≠ [])
    (hdbg : opts.debug = true)
    (hinit : app.initialize_app = Except.ok ())
    (hfind : app.find_command rem = .ok (cmd, cmd_name, sub_argv))
    (hprep : app.prepare_to_run_command cmd = .ok ())
    (hfn : fn = if app.interactive_mode then cmd_name
                else app.NAME ++ " " ++ cmd_name)
    (hgp : cmd.getParser fn = .ok p)
    (hpa : p.parse_args sub_argv = .ok parsed)
    (hrun : cmd.run parsed = .error e) :
    (run app argv).2 = Except.error e ∧
    Event.log_exception e ∈ (run app argv).1 ∧
    Event.clean_up ∈ (run app argv).1 := by
  subst hfn
  obtain ⟨r, rs, rfl⟩ := List.exists_cons_of_ne_nil hrem
  refine ⟨?_, ?_, ?_⟩ <;>
    simp [run, hparse, hinit, run_subcommand, hfind, try_body, hprep,
          hgp, hpa, hrun, hdbg, finally_clean_up, configure_logging]

/-- C4 (witness): the failing command `boom` under `--debug`: the
failure propagates after the full-detail log and the cleanup call. -/
theorem C4_witness :
    (run (debugApp (failCommand "boom")) ["foo"]).2 =
      Except.error "boom" ∧
    Event.log_exception "boom" ∈
      (run (debugApp (failCommand "boom")) ["foo"]).1 ∧
    Event.clean_up ∈ (run (debugApp (failCommand "boom")) ["foo"]).1 :=
  C4_debug_on_execution_failure_propagates (debugApp (failCommand "boom"))
    opts_debug ["foo"] ["foo"] [] [] (failCommand "boom") "foo"
    "prog foo" "boom" okParser rfl (by decide) rfl rfl rfl rfl rfl rfl
    rfl rfl

/-- C5 (counterexample): with `--debug` and a cleanup hook raising
`cboom` after a successful execution, the failure is logged with full
detail yet `run_subcommand` returns the result 0 normally — the
cleanup failure is not re-raised to the caller, refuting "handled
identically to a command-execution failure ... re-raised to the caller
of run when debug is on". -/
theorem C5_counterexample :
    (run_subcommand cleanupFailApp opts_debug ["foo"]).2 = Except.ok 0 ∧
    Event.log_exception "cboom" ∈
      (run_subcommand cleanupFailApp opts_debug ["foo"]).1 :=
  ⟨rfl, by decide⟩

/-- C5 (amended): a failure raised by the cleanup hook is reported
under its own message (full `LOG.exception` detail when debug is on, a
distinct `Could not clean up:` error line when debug is off) and is
always swallowed — it is never re-raised to the caller even in debug
mode, and it never replaces or suppresses the invocation's own
outcome: the returned or propagated result is exactly what it would
have been had cleanup succeeded. -/
theorem C5_cleanup_failure_logged_and_swallowed (app : App)
    (opts : Options) (argv sub_argv : List String) (cmd : Command)
    (cmd_name e2 : String)
    (hfind : app.find_command argv = .ok (cmd, cmd_name, sub_argv))
    (hclean : ∀ c r er, app.clean_up c r er = .error e2) :
    (run_subcommand app opts argv).2 =
      (run_subcommand {app with clean_up := fun _ _ _ => Except.ok ()}
        opts argv).2 ∧
    (opts.debug = true →
      Event.log_exception e2 ∈ (run_subcommand app opts argv).1) ∧
    (opts.debug = false →
      Event.log_error ("Could not clean up: " ++ e2) ∈
        (run_subcommand app opts argv).1) := by
  have htb : try_body {app with clean_up := fun _ _ _ => Except.ok ()}
      cmd cmd_name sub_argv = try_body app cmd cmd_name sub_argv := rfl
  rcases htbr : try_body app cmd cmd_name sub_argv with ⟨t, br⟩
  rcases br with e | r
  · refine ⟨?_, ?_, ?_⟩ <;> [skip; intro hdbg; intro hdbg] <;>
      cases hdbg : opts.debug <;>
        simp_all [run_subcommand, hfind, htb, htbr, finally_clean_up,
                  hclean]
  · refine ⟨?_, ?_, ?_⟩ <;> [skip; intro hdbg; intro hdbg] <;>
      simp_all [run_subcommand, hfind, htb, htbr, finally_clean_up,
                hclean]

/-- C5 (witness): the amended behaviour at the `cboom` fixture under
`--debug`. -/
theorem C5_witness :
    (run_subcommand cleanupFailApp opts_debug ["foo"]).2 =
      (run_subcommand
        {cleanupFailApp with clean_up := fun _ _ _ => Except.ok ()}
        opts_debug ["foo"]).2 ∧
    (opts_debug.debug = true →
      Event.log_exception "cboom" ∈
        (run_subcommand cleanupFailApp opts_debug ["foo"]).1) ∧
    (opts_debug.debug = false →
      Event.log_error ("Could not clean up: " ++ "cboom") ∈
        (run_subcommand cleanupFailApp opts_debug ["foo"]).1) :=
  C5_cleanup_failure_logged_and_swallowed cleanupFailApp opts_debug
    ["foo"] [] (okCommand 0) "foo" "cboom" rfl (fun _ _ _ => rfl)

/-- C6: the console-severity mapping of `configure_logging` is the
total function sending verbosity 0 to warning, 1 to info, 2 to debug,
and every other level (here any `v ≥ 3`, 7 among them) to debug. -/
theorem C6_verbosity_mapping (v : Nat) (h : 3 ≤ v) :
    console_level 0 = WARNING ∧ console_level 1 = INFO ∧
    console_level 2 = DEBUG ∧ console_level 7 = DEBUG ∧
    console_level v = DEBUG := by
  refine ⟨rfl, rfl, rfl, rfl, ?_⟩
  match v, h with
  | n + 3, _ => rfl

/-- C6 (witness): the mapping evaluated with the unmapped level 7. -/
theorem C6_witness :
    console_level 0 = WARNING ∧ console_level 1 = INFO ∧
    console_level 2 = DEBUG ∧ console_level 7 = DEBUG ∧
    console_level 7 = DEBUG :=
  C6_verbosity_mapping 7 (by decide)

/-- The `try` block emits no `initialize_app` event. -/
theorem init_notin_try_body (app : App) (cmd : Command)
    (cmd_name : String) (sub_argv : List String) :
    Event.initialize_app ∉ (try_body app cmd cmd_name sub_argv).1 := by
  cases hprep : app.prepare_to_run_command cmd with
  | error e => simp [try_body, hprep]
  | ok u =>
    cases hgp : cmd.getParser (if app.interactive_mode then cmd_name
                               else app.NAME ++ " " ++ cmd_name) with
    | error e => simp [try_body, hprep, hgp]
    | ok p =>
      cases hpa : p.parse_args sub_argv with
      | error e => simp [try_body, hprep, hgp, hpa]
      | ok parsed =>
        cases hrun : cmd.run parsed with
        | error e => simp [try_body, hprep, hgp, hpa, hrun]
        | ok r => simp [try_body, hprep, hgp, hpa, hrun]

/-- The `finally` block emits no `initialize_app` event. -/
theorem init_notin_finally (app : App) (opts : Options) (cmd : Command)
    (result : Int) (err : Option String) :
    Event.initialize_app ∉ finally_clean_up app opts cmd result err := by
  unfold finally_clean_up
  cases app.clean_up cmd result err with
  | ok u => simp
  | error e2 => cases h : opts.debug <;> simp [h]

/-- Single-shot dispatch emits no `initialize_app` event. -/
theorem init_notin_run_subcommand (app : App) (opts : Options)
    (argv : List String) :
    Event.initialize_app ∉ (run_subcommand app opts argv).1 := by
  cases hfind : app.find_command argv with
  | error e => simp [run_subcommand, hfind]
  | ok fc =>
    obtain ⟨cmd, cmd_name, sub_argv⟩ := fc
    rcases htb : try_body app cmd cmd_name sub_argv with ⟨t, br⟩
    have hnt : Event.initialize_app ∉ t := by
      have h := init_notin_try_body app cmd cmd_name sub_argv
      rwa [htb] at h
    rcases br with e | r
    · cases hdbg : opts.debug <;>
        simp [run_subcommand, hfind, htb, hdbg, hnt, init_notin_finally]
    · simp [run_subcommand, hfind, htb, hnt, init_notin_finally]

/-- The interactive loop emits no `initialize_app` event. -/
theorem init_notin_cmdloop (app : App) (opts : Options)
    (lines : List (List String)) :
    Event.initialize_app ∉ (cmdloop app opts lines).1 := by
  induction lines with
  | nil => simp [cmdloop]
  | cons line rest ih =>
    rcases hrs : run_subcommand app opts line with ⟨t, r⟩
    have hnt : Event.initialize_app ∉ t := by
      have h := init_notin_run_subcommand app opts line
      rwa [hrs] at h
    rcases r with e | v
    · simp [cmdloop, hrs, hnt]
    · rcases hrec : cmdloop app opts rest with ⟨t', r'⟩
      rw [hrec] at ih
      simp [cmdloop, hrs, hrec, hnt]
      exact fun h => ih h

/-- Interactive mode emits no `initialize_app` event. -/
theorem init_notin_interact (app : App) (opts : Options) :
    Event.initialize_app ∉ (interact app opts).1 := by
  rcases hres : cmdloop {app with interactive_mode := true} opts
      app.stdin with ⟨t, r⟩
  have hnt := init_notin_cmdloop {app with interactive_mode := true}
      opts app.stdin
  rw [hres] at hnt
  rcases r with e | v <;> simp [interact, hres] <;> exact fun h => hnt h

/-- C7: when the remainder after global-option parsing is empty, `run`
enters interactive mode: its own trace is exactly logging
configuration, the one-time initialization hook, and the interactive
session (it dispatches no command invocation of its own), and the
result is 0 when the interactive loop ends cleanly at end-of-input. -/
theorem C7_empty_remainder_interactive (app : App) (opts : Options)
    (argv : List String)
    (hparse : app.parse_known_args argv = (opts, []))
    (hinit : app.initialize_app = Except.ok ())
    (hloop : (cmdloop {app with interactive_mode := true} opts
        app.stdin).2 = Except.ok ()) :
    run app argv =
      ([Event.configure_logging (console_level opts.verbose_level),
        Event.initialize_app, Event.interact] ++
        (cmdloop {app with interactive_mode := true} opts app.stdin).1,
       Except.ok 0) := by
  rcases hres : cmdloop {app with interactive_mode := true} opts
      app.stdin with ⟨t, r⟩
  rw [hres] at hloop
  simp at hloop
  subst hloop
  have hint : interact app opts = (Event.interact :: t, Except.ok 0) := by
    simp [interact, hres]
  simp [run, hparse, hinit, hint, configure_logging]

/-- C7 (witness): `baseApp` on an empty argument vector with empty
interactive input. -/
theorem C7_witness :
    run baseApp [] =
      ([Event.configure_logging (console_level opts_default.verbose_level),
        Event.initialize_app, Event.interact] ++
        (cmdloop {baseApp with interactive_mode := true} opts_default
          baseApp.stdin).1,
       Except.ok 0) :=
  C7_empty_remainder_interactive baseApp opts_default [] rfl rfl rfl

/-- C8: every call to `run` invokes the one-time initialization hook
exactly once, directly after logging is configured and before mode
selection: the trace starts with the logging-configuration event and
then the initialization event, and no later event (interactive loop
included, however many invocations it dispatches) is another
initialization. -/
theorem C8_initialize_app_once (app : App) (argv : List String) :
    ∃ t, (run app argv).1 =
        Event.configure_logging
            (console_level (app.parse_known_args argv).1.verbose_level) ::
          Event.initialize_app :: t ∧
      Event.initialize_app ∉ t := by
  rcases hparse : app.parse_known_args argv with ⟨opts, rem⟩
  cases hinit : app.initialize_app with
  | error e =>
    exact ⟨[], by simp [run, hparse, hinit, configure_logging], by simp⟩
  | ok u =>
    cases rem with
    | nil =>
      rcases hres : interact app opts with ⟨t, r⟩
      refine ⟨t, by simp [run, hparse, hinit, configure_logging, hres], ?_⟩
      have h := init_notin_interact app opts
      rwa [hres] at h
    | cons x xs =>
      rcases hres : run_subcommand app opts (x :: xs) with ⟨t, r⟩
      refine ⟨t, by simp [run, hparse, hinit, configure_logging, hres], ?_⟩
      have h := init_notin_run_subcommand app opts (x :: xs)
      rwa [hres] at h

/-- The `finally` block emits no parser-construction event. -/
theorem getParser_notin_finally (app : App) (opts : Options)
    (cmd : Command) (result : Int) (err : Option String) (s : String) :
    Event.getParser s ∉ finally_clean_up app opts cmd result err := by
  unfold finally_clean_up
  cases app.clean_up cmd result err with
  | ok u => simp
  | error e2 => cases h : opts.debug <;> simp [h]

/-- C9: for every successfully resolved command (whose prepare hook
completed, so that the engine reaches parser construction), the
display name passed to the command's parser builder is the short
matched command name in interactive mode and the matched name prefixed
with the program name in single-shot mode — and no other display name
is ever passed during the invocation. -/
theorem C9_display_name (app : App) (opts : Options)
    (argv sub_argv : List String) (cmd : Command) (cmd_name fn : String)
    (hfind : app.find_command argv = .ok (cmd, cmd_name, sub_argv))
    (hprep : app.prepare_to_run_command cmd = .ok ())
    (hfn : fn = if app.interactive_mode then cmd_name
                else app.NAME ++ " " ++ cmd_name) :
    Event.getParser fn ∈ (run_subcommand app opts argv).1 ∧
    ∀ s, Event.getParser s ∈ (run_subcommand app opts argv).1 →
      s = fn := by
  subst hfn
  cases hgp : cmd.getParser (if app.interactive_mode then cmd_name
                             else app.NAME ++ " " ++ cmd_name) with
  | error e =>
    constructor <;>
      cases hdbg : opts.debug <;>
        simp [run_subcommand, hfind, try_body, hprep, hgp, hdbg,
              getParser_notin_finally]
  | ok p =>
    cases hpa : p.parse_args sub_argv with
    | error e =>
      constructor <;>
        cases hdbg : opts.debug <;>
          simp [run_subcommand, hfind, try_body, hprep, hgp, hpa, hdbg,
                getParser_notin_finally]
    | ok parsed =>
      cases hrun : cmd.run parsed with
      | error e =>
        constructor <;>
          cases hdbg : opts.debug <;>
            simp [run_subcommand, hfind, try_body, hprep, hgp, hpa,
                  hrun, hdbg, getParser_notin_finally]
      | ok r =>
        constructor <;>
          simp [run_subcommand, hfind, try_body, hprep, hgp, hpa, hrun,
                getParser_notin_finally]

/-- C9 (witness): in single-shot mode the registered command `foo` has
its parser built under the prefixed name `prog foo`. -/
theorem C9_witness :
    Event.getParser "prog foo" ∈
      (run_subcommand (fooApp (okCommand 0)) opts_default ["foo"]).1 ∧
    ∀ s, Event.getParser s ∈
        (run_subcommand (fooApp (okCommand 0)) opts_default ["foo"]).1 →
      s = "prog foo" :=
  C9_display_name (fooApp (okCommand 0)) opts_default ["foo"] []
    (okCommand 0) "foo" "prog foo" rfl rfl rfl

/-- C10: an interactive session that reaches a clean end-of-input
yields the final result 0, however many of the invocations dispatched
inside the loop failed along the way. -/
theorem C10_interact_returns_zero (app : App) (opts : Options)
    (hloop : (cmdloop {app with interactive_mode := true} opts
        app.stdin).2 = Except.ok ()) :
    (interact app opts).2 = Except.ok 0 := by
  rcases hres : cmdloop {app with interactive_mode := true} opts
      app.stdin with ⟨t, r⟩
  rw [hres] at hloop
  simp at hloop
  subst hloop
  simp [interact, hres]

/-- C10 (witness): a session of two lines whose invocations both fail
(debug off) still ends with result 0. -/
theorem C10_witness :
    (interact interactiveFailApp opts_default).2 = Except.ok 0 :=
  C10_interact_returns_zero interactiveFailApp opts_default rfl

end Cliff
